import Mathlib

/-!
Shallow embedding of the QR-code generator's auth / rate-limit / link-registry
core (`src/app/api/auth/route.ts`, `src/app/api/links/route.ts`,
`src/app/r/[slug]/route.ts`, `src/lib/local-kv.ts`).

The key-value store is modelled as an association list (most recent binding
first), matching the get/set/del contract of `localKV` restricted to the key
namespace each operation touches.  Timestamps (`Date.now()`) are naturals
(milliseconds).  JavaScript truthiness of optional string / number fields is
modelled explicitly (`jsTruthyStr`, `jsTruthyNat`): the empty string and 0 are
falsy.  The WHATWG URL parser (`new URL(...)`) and bcrypt are platform
collaborators, so the embedding is parameterised over `validURL`,
`bcryptHash` and `bcryptCompare`.
-/

namespace QRGen

/-- `storage.get`: association-list lookup. -/
def kvGet {α : Type} (store : List (String × α)) (k : String) : Option α :=
  store.lookup k

/-- `storage.set`: bind `k` to `v`, shadowing any previous binding. -/
def kvSet {α : Type} (store : List (String × α)) (k : String) (v : α) :
    List (String × α) :=
  (k, v) :: store.filter (fun p => p.1 != k)

/-- `storage.del`: remove any binding of `k`. -/
def kvDel {α : Type} (store : List (String × α)) (k : String) :
    List (String × α) :=
  store.filter (fun p => p.1 != k)

/-- JS truthiness of an optional string field: `undefined` and `""` are falsy. -/
def jsTruthyStr : Option String → Bool
  | some s => s != ""
  | none => false

/-- JS truthiness of an optional number field: `undefined` and `0` are falsy. -/
def jsTruthyNat : Option Nat → Bool
  | some v => v != 0
  | none => false

/-! ## Rate limiter (`src/app/api/auth/route.ts`) -/

/-- `MAX_LOGIN_ATTEMPTS = 5`. -/
def MAX_LOGIN_ATTEMPTS : Nat := 5

/-- `LOCKOUT_DURATION = 15 * 60 * 1000`. -/
def LOCKOUT_DURATION : Nat := 15 * 60 * 1000

/-- `ATTEMPT_WINDOW = 15 * 60 * 1000`. -/
def ATTEMPT_WINDOW : Nat := 15 * 60 * 1000

/-- `SESSION_EXPIRY = 7 * 24 * 60 * 60 * 1000`. -/
def SESSION_EXPIRY : Nat := 7 * 24 * 60 * 60 * 1000

/-- `RateLimitData` record stored at `ratelimit:<ip>`. -/
structure RateLimitData where
  attempts : Nat
  firstAttempt : Nat
  lockedUntil : Option Nat
  deriving DecidableEq, Repr

/-- Result object of `checkRateLimit`. -/
structure RLCheck where
  allowed : Bool
  remainingAttempts : Option Nat
  lockedUntil : Option Nat
  deriving DecidableEq, Repr

/-- `data?.lockedUntil && data.lockedUntil > now` (truthiness of `lockedUntil`
is absorbed by the comparison, since `0 > now` is false). -/
def lockActive (lockedUntil : Option Nat) (now : Nat) : Bool :=
  match lockedUntil with
  | some v => v > now
  | none => false

/-- `checkRateLimit(ip)`: first component is the returned object, second the
rate-limit record stored at `ratelimit:<ip>` afterwards (the function writes
only in the re-lock branch). -/
def checkRateLimit (now : Nat) (data : Option RateLimitData) :
    RLCheck × Option RateLimitData :=
  match data with
  | none => (⟨true, some MAX_LOGIN_ATTEMPTS, none⟩, none)
  | some d =>
    if lockActive d.lockedUntil now then
      (⟨false, none, d.lockedUntil⟩, some d)
    else if now - d.firstAttempt > ATTEMPT_WINDOW then
      (⟨true, some MAX_LOGIN_ATTEMPTS, none⟩, some d)
    else if d.attempts ≥ MAX_LOGIN_ATTEMPTS then
      (⟨false, none, some (now + LOCKOUT_DURATION)⟩,
       some { d with lockedUntil := some (now + LOCKOUT_DURATION) })
    else
      (⟨true, some (MAX_LOGIN_ATTEMPTS - d.attempts), none⟩, some d)

/-- Result object of `recordFailedAttempt`. -/
structure RecordResult where
  remainingAttempts : Nat
  locked : Bool
  deriving DecidableEq, Repr

/-- `recordFailedAttempt(ip)`: returns the result object and the new stored
record. -/
def recordFailedAttempt (now : Nat) (data : Option RateLimitData) :
    RecordResult × RateLimitData :=
  let newData : RateLimitData :=
    match data with
    | none => ⟨1, now, none⟩
    | some d =>
      if now - d.firstAttempt > ATTEMPT_WINDOW then ⟨1, now, none⟩
      else if d.attempts + 1 ≥ MAX_LOGIN_ATTEMPTS then
        ⟨d.attempts + 1, d.firstAttempt, some (now + LOCKOUT_DURATION)⟩
      else ⟨d.attempts + 1, d.firstAttempt, d.lockedUntil⟩
  (⟨MAX_LOGIN_ATTEMPTS - newData.attempts, jsTruthyNat newData.lockedUntil⟩, newData)

/-! ## Credential and session manager (`src/app/api/auth/route.ts`) -/

/-- `AuthData` record stored at `auth:password`. -/
structure AuthData where
  passwordHash : String
  createdAt : Nat
  deriving DecidableEq, Repr

/-- `SessionData` record stored at `session:<token>`. -/
structure SessionData where
  createdAt : Nat
  expiresAt : Nat
  deriving DecidableEq, Repr

/-- The slice of the key-value store the auth route touches, for one fixed
client identity: the singleton `auth:password` record, the session records
(keyed by token), and the `ratelimit:<ip>` record of that identity. -/
structure AuthState where
  auth : Option AuthData
  sessions : List (String × SessionData)
  rl : Option RateLimitData
  deriving DecidableEq, Repr

/-- Outcome of `POST /api/auth {action:"login"}`. -/
inductive LoginResult where
  | rateLimited (lockedUntil : Option Nat)
  | lockedNow
  | notSetUp
  | missingPassword
  | invalidPassword (remainingAttempts : Nat)
  | success (token : String)
  deriving DecidableEq, Repr

/-- HTTP status of each login outcome. -/
def loginHttpStatus : LoginResult → Nat
  | .rateLimited _ => 429
  | .lockedNow => 429
  | .notSetUp => 400
  | .missingPassword => 400
  | .invalidPassword _ => 401
  | .success _ => 200

/-- `POST /api/auth {action:"login", password}`.  `bcryptCompare` models
`bcrypt.compare`, `newToken` the value produced by `generateSessionToken`,
`now` is `Date.now()`; a missing password field is modelled as `""` (both are
falsy). -/
def login (bcryptCompare : String → String → Bool) (newToken : String)
    (now : Nat) (password : String) (st : AuthState) : LoginResult × AuthState :=
  let checked := checkRateLimit now st.rl
  let st1 : AuthState := { st with rl := checked.2 }
  if !checked.1.allowed then
    (.rateLimited checked.1.lockedUntil, st1)
  else
    match st.auth with
    | none => (.notSetUp, st1)
    | some a =>
      if a.passwordHash = "" then (.notSetUp, st1)
      else if password = "" then (.missingPassword, st1)
      else if !bcryptCompare password a.passwordHash then
        let recorded := recordFailedAttempt now st1.rl
        if recorded.1.locked then
          (.lockedNow, { st1 with rl := some recorded.2 })
        else
          (.invalidPassword recorded.1.remainingAttempts,
           { st1 with rl := some recorded.2 })
      else
        (.success newToken,
         { st1 with
             rl := none,
             sessions := kvSet st1.sessions newToken ⟨now, now + SESSION_EXPIRY⟩ })

/-- Outcome of `POST /api/auth {action:"setup"}`. -/
inductive SetupResult where
  | alreadySetUp
  | weakPassword
  | ok (token : String)
  deriving DecidableEq, Repr

/-- HTTP status of each setup outcome. -/
def setupHttpStatus : SetupResult → Nat
  | .alreadySetUp => 400
  | .weakPassword => 400
  | .ok _ => 200

/-- `POST /api/auth {action:"setup", password}`.  `bcryptHash` models
`bcrypt.hash(·, 10)`; the `existing?.passwordHash` truthiness check means a
record is "present" only when its hash is a non-empty string. -/
def setup (bcryptHash : String → String) (newToken : String) (now : Nat)
    (password : String) (st : AuthState) : SetupResult × AuthState :=
  if jsTruthyStr (st.auth.map (fun a => a.passwordHash)) then
    (.alreadySetUp, st)
  else if password.length < 6 then
    (.weakPassword, st)
  else
    (.ok newToken,
     { st with
         auth := some ⟨bcryptHash password, now⟩,
         sessions := kvSet st.sessions newToken ⟨now, now + SESSION_EXPIRY⟩ })

/-- `GET /api/auth?action=verify`: the session cookie value (a missing cookie
is modelled as `""`, which is falsy) is looked up; the record is rejected only
when absent or `expiresAt < now`. -/
def authVerifyGET (sessions : List (String × SessionData)) (token : String)
    (now : Nat) : Bool :=
  if token = "" then false
  else
    match kvGet sessions token with
    | none => false
    | some s => !(s.expiresAt < now)

/-- `isAuthorized` from `src/app/api/links/route.ts`: byte-for-byte the same
check as `authVerifyGET`. -/
def isAuthorized (sessions : List (String × SessionData)) (token : String)
    (now : Nat) : Bool :=
  if token = "" then false
  else
    match kvGet sessions token with
    | none => false
    | some s => !(s.expiresAt < now)

/-- The `isAuthenticated` computation of `GET /api/auth?action=status`, which
uses the strict comparison `session.expiresAt > Date.now()`. -/
def authStatusIsAuthenticated (sessions : List (String × SessionData))
    (token : String) (now : Nat) : Bool :=
  if token = "" then false
  else
    match kvGet sessions token with
    | none => false
    | some s => s.expiresAt > now

/-! ## Link registry (`src/app/api/links/route.ts`) -/

/-- `LinkData` record stored at `link:<slug>` (the `slug` field of the
interface is the store key here).  `status` is a plain string at runtime:
the route writes request values into it without checking membership in
`"draft" | "active"`. -/
structure LinkData where
  destination : String
  createdAt : Nat
  updatedAt : Nat
  clicks : Nat
  status : String
  qrCode : Option String
  deriving DecidableEq, Repr

/-- The character class of the slug regex `[a-zA-Z0-9_-]`. -/
def slugCharOk (c : Char) : Bool :=
  c.isAlphanum || c = '_' || c = '-'

/-- `^[a-zA-Z0-9_-]+$`: at least one character, all from the class (a string
is tested through its character sequence). -/
def matchesSlugRegex (s : String) : Bool :=
  s != "" && s.data.all slugCharOk

/-- Outcome of `POST /api/links`. -/
inductive CreateResult where
  | missingFields
  | invalidSlug
  | duplicateSlug
  | invalidDestination
  | created (record : LinkData)
  deriving DecidableEq, Repr

/-- HTTP status of each create outcome. -/
def createHttpStatus : CreateResult → Nat
  | .missingFields => 400
  | .invalidSlug => 400
  | .duplicateSlug => 409
  | .invalidDestination => 400
  | .created _ => 201

/-- `POST /api/links {slug, destination, status?, qrCode?}`.  `validURL`
models `new URL(destination)` succeeding; absent `slug` / `destination`
fields are modelled as `""` (both falsy).  The defaulted `status` is
`"draft"` only when the request supplies exactly `"draft"`, otherwise
`"active"`. -/
def linksPOST (validURL : String → Bool) (now : Nat) (slug destination : String)
    (reqStatus qrCode : Option String) (links : List (String × LinkData)) :
    CreateResult × List (String × LinkData) :=
  if slug = "" || destination = "" then (.missingFields, links)
  else if !(slug.data.all slugCharOk) then (.invalidSlug, links)
  else
    match kvGet links slug with
    | some _ => (.duplicateSlug, links)
    | none =>
      if !(validURL destination) then (.invalidDestination, links)
      else
        let record : LinkData :=
          { destination := destination
            createdAt := now
            updatedAt := now
            clicks := 0
            status := if reqStatus.getD "active" = "draft" then "draft" else "active"
            qrCode := if jsTruthyStr qrCode then qrCode else none }
        (.created record, kvSet links slug record)

/-- Outcome of `PUT /api/links`. -/
inductive UpdateResult where
  | missingSlug
  | notFound
  | invalidDestination
  | updated (record : LinkData)
  deriving DecidableEq, Repr

/-- HTTP status of each update outcome. -/
def updateHttpStatus : UpdateResult → Nat
  | .missingSlug => 400
  | .notFound => 404
  | .invalidDestination => 400
  | .updated _ => 200

/-- `PUT /api/links {slug, destination?, status?, qrCode?}`.  The three
optional fields take effect only when truthy (`...(field && { field })`); the
destination is validated only when truthy (`if (destination) { new URL(...) }`);
`updatedAt` is always set to `Date.now()`. -/
def linksPUT (validURL : String → Bool) (now : Nat) (slug : String)
    (destination reqStatus qrCode : Option String)
    (links : List (String × LinkData)) :
    UpdateResult × List (String × LinkData) :=
  if slug = "" then (.missingSlug, links)
  else
    match kvGet links slug with
    | none => (.notFound, links)
    | some existing =>
      if jsTruthyStr destination && !(validURL (destination.getD "")) then
        (.invalidDestination, links)
      else
        let record : LinkData :=
          { existing with
              destination :=
                if jsTruthyStr destination then destination.getD "" else existing.destination
              status :=
                if jsTruthyStr reqStatus then reqStatus.getD "" else existing.status
              qrCode :=
                if jsTruthyStr qrCode then qrCode else existing.qrCode
              updatedAt := now }
        (.updated record, kvSet links slug record)

/-! ## Redirect resolver (`src/app/r/[slug]/route.ts`, local-store branch) -/

/-- Outcome of `GET /r/[slug]`: redirect to the stored destination, or the
home-page fallback when the slug is unknown. -/
inductive ResolveResult where
  | redirect (destination : String)
  | home
  deriving DecidableEq, Repr

/-- HTTP status of each resolve outcome (`NextResponse.redirect(dest,
{status: 307})`; the home fallback is also a redirect, not a 404). -/
def resolveHttpStatus : ResolveResult → Nat
  | .redirect _ => 307
  | .home => 307

/-- `GET /r/[slug]` with the `localKV` backend: look the record up; if absent
redirect home; otherwise increment `clicks` in place and issue an HTTP 307
redirect to the stored destination. -/
def resolveGET (links : List (String × LinkData)) (slug : String) :
    ResolveResult × List (String × LinkData) :=
  match kvGet links slug with
  | none => (.home, links)
  | some d =>
    (.redirect d.destination, kvSet links slug { d with clicks := d.clicks + 1 })

/-- `n` sequential (non-concurrent) calls of `GET /r/[slug]`, keeping only
the store. -/
def resolveN (slug : String) : Nat → List (String × LinkData) → List (String × LinkData)
  | 0, links => links
  | n + 1, links => resolveN slug n (resolveGET links slug).2

/-! ## Spec-side predicate and concrete instantiations -/

/-- Session validity as the spec words it: `a session is valid iff it exists
in the store and expiresAt > now`. -/
def sessionValidSpec (sessions : List (String × SessionData)) (token : String)
    (now : Nat) : Bool :=
  match kvGet sessions token with
  | none => false
  | some s => s.expiresAt > now

/-- Concrete stand-in for the WHATWG URL parser, used only to instantiate the
parameterised statements on concrete inputs. -/
def demoValidURL (s : String) : Bool :=
  s == "https://a.com" || s == "https://b.com" || s == "https://example.com/sale"

/-- Concrete stand-in for `bcrypt.compare`, used only for instantiation. -/
def demoCompare (p h : String) : Bool := p == "good" && h == "H"

/-- Concrete stand-in for `bcrypt.hash`, used only for instantiation. -/
def demoHash (p : String) : String := String.append "#" p

/-- Iterate failed login calls (wrong password `wrongPw`) at the given
timestamps, keeping the state. -/
def afterFailedLogins (bcryptCompare : String → String → Bool)
    (tok wrongPw : String) : List Nat → AuthState → AuthState
  | [], st => st
  | t :: ts, st => afterFailedLogins bcryptCompare tok wrongPw ts
      (login bcryptCompare tok t wrongPw st).2

/-! ## Store lemmas -/

theorem kvGet_kvSet_self {α : Type} (store : List (String × α)) (k : String) (v : α) :
    kvGet (kvSet store k v) k = some v := by
  simp [kvGet, kvSet, List.lookup]

theorem lookup_filter_ne {α : Type} (l : List (String × α)) (k k' : String)
    (h : k' ≠ k) :
    List.lookup k' (l.filter (fun p => p.1 != k)) = List.lookup k' l := by
  induction l with
  | nil => rfl
  | cons p rest ih =>
    obtain ⟨a, b⟩ := p
    by_cases ha : a = k
    · subst ha
      simp only [List.filter_cons, bne_self_eq_false, if_false, Bool.false_eq_true]
      rw [List.lookup_cons]
      have hk : (k' == a) = false := by simpa using h
      rw [hk]
      exact ih
    · have hne : ((a, b).1 != k) = true := by simpa using ha
      simp only [List.filter_cons, hne, if_true]
      rw [List.lookup_cons, List.lookup_cons]
      cases hk : (k' == a) with
      | true => rfl
      | false => exact ih

theorem kvGet_kvSet_ne {α : Type} (store : List (String × α)) (k k' : String) (v : α)
    (h : k' ≠ k) : kvGet (kvSet store k v) k' = kvGet store k' := by
  simp only [kvGet, kvSet]
  rw [List.lookup_cons]
  have hk : (k' == k) = false := by simpa using h
  rw [hk]
  exact lookup_filter_ne store k k' h

/-! ## Claim C2 -/

/-- C2 (counterexample): the claim "verify returns true iff a SessionRecord
exists and its `expiresAt` is strictly greater than the current time" fails at
the boundary instant: with a session expiring exactly at `now = 100`,
`verify` answers `true` while the spec-side predicate is `false`. -/
theorem C2_counterexample :
    authVerifyGET [("t", ⟨0, 100⟩)] "t" 100 = true ∧
    sessionValidSpec [("t", ⟨0, 100⟩)] "t" 100 = false := by decide

/-- C2 (amended): `verify` returns true iff a SessionRecord exists for the
token and `expiresAt ≥ now` (the code rejects only `expiresAt < Date.now()`,
so the boundary instant is accepted); `isAuthorized` answers exactly as
`verify`; a record with `expiresAt` strictly in the past is treated like a
missing record. -/
theorem C2_session_validity (sessions : List (String × SessionData))
    (token : String) (now : Nat) (h : token ≠ "") :
    (authVerifyGET sessions token now = true ↔
      ∃ s, kvGet sessions token = some s ∧ now ≤ s.expiresAt) ∧
    isAuthorized sessions token now = authVerifyGET sessions token now ∧
    (∀ s, kvGet sessions token = some s → s.expiresAt < now →
      authVerifyGET sessions token now = false) := by
  refine ⟨?_, rfl, ?_⟩
  · simp only [authVerifyGET, if_neg h]
    cases hk : kvGet sessions token with
    | none => simp
    | some s =>
      simp only [Option.some.injEq, Bool.not_eq_true', decide_eq_false_iff_not,
        Nat.not_lt]
      constructor
      · intro h'
        exact ⟨s, rfl, by simpa using h'⟩
      · rintro ⟨s', rfl, h'⟩
        simpa using h'
  · intro s hk hexp
    simp [authVerifyGET, if_neg h, hk, hexp]

/-- C2 (witness): concrete instance of `C2_session_validity`. -/
theorem C2_witness :
    ("t" : String) ≠ "" ∧
    ((authVerifyGET [("t", ⟨0, 100⟩)] "t" 50 = true ↔
      ∃ s, kvGet [("t", (⟨0, 100⟩ : SessionData))] "t" = some s ∧ 50 ≤ s.expiresAt) ∧
    isAuthorized [("t", ⟨0, 100⟩)] "t" 50 = authVerifyGET [("t", ⟨0, 100⟩)] "t" 50 ∧
    (∀ s, kvGet [("t", (⟨0, 100⟩ : SessionData))] "t" = some s → s.expiresAt < 50 →
      authVerifyGET [("t", ⟨0, 100⟩)] "t" 50 = false)) :=
  ⟨by decide, C2_session_validity [("t", ⟨0, 100⟩)] "t" 50 (by decide)⟩

/-! ## Claim C10 -/

/-- C10: `update` with provided-but-empty-string fields succeeds with HTTP
200, performs no URL validation on the empty destination (the result is the
same for every `validURL`), leaves `destination`, `status` and `qrCode` at
their previous values, and still refreshes `updatedAt`. -/
theorem C10_update_empty_strings (validURL : String → Bool) (now : Nat)
    (slug : String) (links : List (String × LinkData)) (old : LinkData)
    (hs : slug ≠ "") (h : kvGet links slug = some old) :
    linksPUT validURL now slug (some "") (some "") (some "") links =
      (.updated { old with updatedAt := now },
       kvSet links slug { old with updatedAt := now }) ∧
    updateHttpStatus
      (linksPUT validURL now slug (some "") (some "") (some "") links).1 = 200 ∧
    ({ old with updatedAt := now } : LinkData).destination = old.destination ∧
    ({ old with updatedAt := now } : LinkData).status = old.status ∧
    ({ old with updatedAt := now } : LinkData).qrCode = old.qrCode := by
  have h1 : linksPUT validURL now slug (some "") (some "") (some "") links =
      (.updated { old with updatedAt := now },
       kvSet links slug { old with updatedAt := now }) := by
    simp [linksPUT, h, hs, jsTruthyStr]
  exact ⟨h1, by rw [h1]; rfl, rfl, rfl, rfl⟩

/-- C10 (witness): concrete instance of `C10_update_empty_strings`. -/
theorem C10_witness :
    ("x" : String) ≠ "" ∧
    kvGet [("x", (⟨"https://a.com", 0, 0, 0, "active", none⟩ : LinkData))] "x" =
      some ⟨"https://a.com", 0, 0, 0, "active", none⟩ ∧
    (linksPUT demoValidURL 5 "x" (some "") (some "") (some "")
        [("x", ⟨"https://a.com", 0, 0, 0, "active", none⟩)]).1 =
      .updated ⟨"https://a.com", 0, 5, 0, "active", none⟩ :=
  ⟨by decide, by decide,
   by
    have h := (C10_update_empty_strings demoValidURL 5 "x"
      [("x", ⟨"https://a.com", 0, 0, 0, "active", none⟩)]
      ⟨"https://a.com", 0, 0, 0, "active", none⟩ (by decide) (by decide)).1
    rw [h]⟩

/-! ## Claim C9 -/

/-- C9 (counterexample): `PUT` copies a provided truthy `status` into the
stored record without checking membership in `"draft" | "active"`: updating
with `status = "weird"` stores `"weird"`. -/
theorem C9_counterexample :
    (linksPUT demoValidURL 5 "x" none (some "weird") none
        [("x", ⟨"https://a.com", 0, 0, 0, "active", none⟩)]).2 =
      [("x", ⟨"https://a.com", 0, 5, 0, "weird", none⟩)] ∧
    ¬ (("weird" : String) = "draft" ∨ ("weird" : String) = "active") := by decide

/-- C9 (amended): every record written by `create` has status `"draft"` or
`"active"`; a record written by `update` stays in that two-value domain
provided the request's `status` field is absent, empty, or itself one of the
two values — an `update` supplying any other truthy string stores it
verbatim, leaving the domain. -/
theorem C9_status_domain :
    (∀ (validURL : String → Bool) (now : Nat) (slug destination : String)
       (rs qr : Option String) (links : List (String × LinkData))
       (rec : LinkData) (links' : List (String × LinkData)),
      linksPOST validURL now slug destination rs qr links =
        (.created rec, links') →
      rec.status = "draft" ∨ rec.status = "active") ∧
    (∀ (validURL : String → Bool) (now : Nat) (slug : String)
       (dOpt rs qr : Option String) (links : List (String × LinkData))
       (old rec : LinkData) (links' : List (String × LinkData)),
      kvGet links slug = some old →
      (old.status = "draft" ∨ old.status = "active") →
      (rs = none ∨ rs = some "" ∨ rs = some "draft" ∨ rs = some "active") →
      linksPUT validURL now slug dOpt rs qr links = (.updated rec, links') →
      rec.status = "draft" ∨ rec.status = "active") := by
  constructor
  · intro validURL now slug destination rs qr links rec links' h
    simp only [linksPOST] at h
    split at h
    · simp at h
    · split at h
      · simp at h
      · split at h
        · simp at h
        · split at h
          · simp at h
          · simp only [Prod.mk.injEq, CreateResult.created.injEq] at h
            obtain ⟨h1, -⟩ := h
            subst h1
            split
            · left; rfl
            · right; rfl
  · intro validURL now slug dOpt rs qr links old rec links' hk hold hrs h
    by_cases hs : slug = ""
    · rw [hs] at h
      simp [linksPUT] at h
    · by_cases hv : (jsTruthyStr dOpt && !validURL (dOpt.getD "")) = true
      · simp [linksPUT, hs, hk, hv] at h
      · simp only [linksPUT, if_neg hs, hk] at h
        rw [if_neg (by simpa using hv)] at h
        simp only [Prod.mk.injEq, UpdateResult.updated.injEq] at h
        obtain ⟨h1, -⟩ := h
        subst h1
        rcases hrs with rfl | rfl | rfl | rfl
        · simpa [jsTruthyStr] using hold
        · simpa [jsTruthyStr] using hold
        · left; simp [jsTruthyStr]
        · right; simp [jsTruthyStr]

/-- C9 (witness): concrete instance of both halves of `C9_status_domain`. -/
theorem C9_witness :
    (linksPOST demoValidURL 10 "a" "https://a.com" (some "odd") none [] =
      (.created ⟨"https://a.com", 10, 10, 0, "active", none⟩,
       [("a", ⟨"https://a.com", 10, 10, 0, "active", none⟩)]) ∧
     (("active" : String) = "draft" ∨ ("active" : String) = "active")) ∧
    (kvGet [("x", (⟨"https://a.com", 0, 0, 0, "draft", none⟩ : LinkData))] "x" =
      some ⟨"https://a.com", 0, 0, 0, "draft", none⟩ ∧
     (("draft" : String) = "draft" ∨ ("draft" : String) = "active")) :=
  ⟨⟨by decide,
    C9_status_domain.1 demoValidURL 10 "a" "https://a.com" (some "odd") none []
      ⟨"https://a.com", 10, 10, 0, "active", none⟩
      [("a", ⟨"https://a.com", 10, 10, 0, "active", none⟩)] (by decide)⟩,
   ⟨by decide,
    C9_status_domain.2 demoValidURL 7 "x" none (some "draft") none
      [("x", ⟨"https://a.com", 0, 0, 0, "draft", none⟩)]
      ⟨"https://a.com", 0, 0, 0, "draft", none⟩
      ⟨"https://a.com", 0, 7, 0, "draft", none⟩
      [("x", ⟨"https://a.com", 0, 7, 0, "draft", none⟩)]
      (by decide) (by decide) (by decide) (by decide)⟩⟩

/-! ## Claim C3 -/

/-- C3 (counterexample): the claim "`create(s, d2)` fails with HTTP 409
regardless of `d2`" fails for `d2 = ""`: the required-field check fires
first and the call fails with HTTP 400 (`missingFields`), not 409. -/
theorem C3_counterexample :
    (linksPOST demoValidURL 10 "a" "https://a.com" none none []).1 =
      .created ⟨"https://a.com", 10, 10, 0, "active", none⟩ ∧
    (linksPOST demoValidURL 11 "a" "" none none
        (linksPOST demoValidURL 10 "a" "https://a.com" none none []).2).1 =
      .missingFields ∧
    createHttpStatus .missingFields = 400 ∧ (400 : Nat) ≠ 409 := by decide

/-- C3 (amended): after `create(s, d1)` succeeds, a second `create(s, d2)`
fails and leaves the store unchanged: with HTTP 409 (`duplicateSlug`) for
every non-empty `d2`, and with HTTP 400 (`missingFields`) for `d2 = ""`
because the required-field check precedes the existence check. -/
theorem C3_duplicate_create (validURL : String → Bool)
    (now1 now2 : Nat) (slug d1 d2 : String) (rs1 qr1 rs2 qr2 : Option String)
    (links links' : List (String × LinkData)) (rec : LinkData)
    (h1 : linksPOST validURL now1 slug d1 rs1 qr1 links = (.created rec, links'))
    (hd2 : d2 ≠ "") :
    linksPOST validURL now2 slug d2 rs2 qr2 links' = (.duplicateSlug, links') ∧
    createHttpStatus .duplicateSlug = 409 ∧
    linksPOST validURL now2 slug "" rs2 qr2 links' = (.missingFields, links') := by
  simp only [linksPOST] at h1
  split at h1
  · simp at h1
  · rename_i hreq
    split at h1
    · simp at h1
    · rename_i hslugchars
      split at h1
      · simp at h1
      · rename_i hfresh
        split at h1
        · simp at h1
        · simp only [Prod.mk.injEq, CreateResult.created.injEq] at h1
          obtain ⟨-, h1'⟩ := h1
          have hslug : slug ≠ "" := by
            intro hs
            exact hreq (by simp [hs])
          obtain ⟨v, hget⟩ : ∃ v, kvGet links' slug = some v :=
            ⟨_, by rw [← h1']; exact kvGet_kvSet_self links slug _⟩
          refine ⟨?_, rfl, ?_⟩
          · simp only [linksPOST]
            rw [if_neg (by simp [hslug, hd2]), if_neg (by simpa using hslugchars),
              hget]
          · simp [linksPOST]

/-- C3 (witness): concrete instance of `C3_duplicate_create`. -/
theorem C3_witness :
    linksPOST demoValidURL 10 "a" "https://a.com" none none [] =
      (.created ⟨"https://a.com", 10, 10, 0, "active", none⟩,
       [("a", ⟨"https://a.com", 10, 10, 0, "active", none⟩)]) ∧
    ("https://b.com" : String) ≠ "" ∧
    (linksPOST demoValidURL 11 "a" "https://b.com" none none
        [("a", ⟨"https://a.com", 10, 10, 0, "active", none⟩)] =
      (.duplicateSlug, [("a", ⟨"https://a.com", 10, 10, 0, "active", none⟩)]) ∧
     createHttpStatus .duplicateSlug = 409 ∧
     linksPOST demoValidURL 11 "a" "" none none
        [("a", ⟨"https://a.com", 10, 10, 0, "active", none⟩)] =
      (.missingFields, [("a", ⟨"https://a.com", 10, 10, 0, "active", none⟩)])) :=
  ⟨by decide, by decide,
   C3_duplicate_create demoValidURL 10 11 "a" "https://a.com" "https://b.com"
     none none none none []
     [("a", ⟨"https://a.com", 10, 10, 0, "active", none⟩)]
     ⟨"https://a.com", 10, 10, 0, "active", none⟩ (by decide) (by decide)⟩

/-! ## Shared lemmas about `linksPOST` and `linksPUT` -/

theorem linksPOST_invalid_slug (validURL : String → Bool) (now : Nat)
    (slug destination : String) (rs qr : Option String)
    (links : List (String × LinkData)) (h : matchesSlugRegex slug = false) :
    createHttpStatus (linksPOST validURL now slug destination rs qr links).1 = 400 ∧
    (linksPOST validURL now slug destination rs qr links).2 = links := by
  by_cases hs : slug = ""
  · have h1 : linksPOST validURL now slug destination rs qr links =
        (.missingFields, links) := by
      simp [linksPOST, hs]
    rw [h1]; exact ⟨rfl, rfl⟩
  · have hall : slug.data.all slugCharOk = false := by
      simpa [matchesSlugRegex, hs] using h
    by_cases hd : destination = ""
    · have h1 : linksPOST validURL now slug destination rs qr links =
          (.missingFields, links) := by
        simp [linksPOST, hd]
      rw [h1]; exact ⟨rfl, rfl⟩
    · have h1 : linksPOST validURL now slug destination rs qr links =
          (.invalidSlug, links) := by
        simp only [linksPOST]
        rw [if_neg (by simp [hs, hd]), if_pos (by simp [hall])]
      rw [h1]; exact ⟨rfl, rfl⟩

theorem linksPOST_invalid_dest (validURL : String → Bool) (now : Nat)
    (slug destination : String) (rs qr : Option String)
    (links : List (String × LinkData)) (hfresh : kvGet links slug = none)
    (hurl : validURL destination = false) :
    createHttpStatus (linksPOST validURL now slug destination rs qr links).1 = 400 ∧
    (linksPOST validURL now slug destination rs qr links).2 = links := by
  by_cases hs : slug = ""
  · have h1 : linksPOST validURL now slug destination rs qr links =
        (.missingFields, links) := by
      simp [linksPOST, hs]
    rw [h1]; exact ⟨rfl, rfl⟩
  · by_cases hd : destination = ""
    · have h1 : linksPOST validURL now slug destination rs qr links =
          (.missingFields, links) := by
        simp [linksPOST, hd]
      rw [h1]; exact ⟨rfl, rfl⟩
    · by_cases hall : slug.data.all slugCharOk
      · have h1 : linksPOST validURL now slug destination rs qr links =
            (.invalidDestination, links) := by
          simp only [linksPOST, hfresh]
          rw [if_neg (by simp [hs, hd]), if_neg (by simp [hall]),
            if_pos (by simp [hurl])]
        rw [h1]; exact ⟨rfl, rfl⟩
      · have hall' : slug.data.all slugCharOk = false := by
          simpa using hall
        have h1 : linksPOST validURL now slug destination rs qr links =
            (.invalidSlug, links) := by
          simp only [linksPOST]
          rw [if_neg (by simp [hs, hd]), if_pos (by simp [hall'])]
        rw [h1]; exact ⟨rfl, rfl⟩

theorem linksPOST_success (validURL : String → Bool) (now : Nat)
    (slug destination : String) (rs qr : Option String)
    (links : List (String × LinkData)) (h : matchesSlugRegex slug = true)
    (hfresh : kvGet links slug = none) (hd : destination ≠ "")
    (hurl : validURL destination = true) :
    linksPOST validURL now slug destination rs qr links =
      (.created ⟨destination, now, now, 0,
         if rs = some "draft" then "draft" else "active",
         if jsTruthyStr qr then qr else none⟩,
       kvSet links slug ⟨destination, now, now, 0,
         if rs = some "draft" then "draft" else "active",
         if jsTruthyStr qr then qr else none⟩) := by
  simp only [matchesSlugRegex, Bool.and_eq_true, bne_iff_ne, ne_eq] at h
  have hstat : (if rs.getD "active" = "draft" then "draft" else "active") =
      (if rs = some "draft" then "draft" else "active") := by
    cases rs with
    | none => simp
    | some s => simp
  simp [linksPOST, h.1, h.2, hd, hfresh, hurl, hstat]

theorem linksPUT_frame (validURL : String → Bool) (now : Nat) (slug : String)
    (dOpt sOpt qOpt : Option String) (links : List (String × LinkData))
    (old : LinkData) (hs : slug ≠ "") (hk : kvGet links slug = some old)
    (hval : jsTruthyStr dOpt = true → validURL (dOpt.getD "") = true) :
    ∃ rec, linksPUT validURL now slug dOpt sOpt qOpt links =
        (.updated rec, kvSet links slug rec) ∧
      updateHttpStatus (.updated rec) = 200 ∧
      rec.updatedAt = now ∧ rec.createdAt = old.createdAt ∧
      rec.clicks = old.clicks ∧
      (dOpt = none → rec.destination = old.destination) ∧
      (sOpt = none → rec.status = old.status) ∧
      (qOpt = none → rec.qrCode = old.qrCode) := by
  have hv : (jsTruthyStr dOpt && !validURL (dOpt.getD "")) = false := by
    cases hdt : jsTruthyStr dOpt with
    | false => simp
    | true => simp [hval hdt]
  refine ⟨{ old with
      destination := if jsTruthyStr dOpt then dOpt.getD "" else old.destination,
      status := if jsTruthyStr sOpt then sOpt.getD "" else old.status,
      qrCode := if jsTruthyStr qOpt then qOpt else old.qrCode,
      updatedAt := now }, ?_, rfl, rfl, rfl, rfl, ?_, ?_, ?_⟩
  · simp only [linksPUT, if_neg hs, hk]
    rw [if_neg (by simp [hv])]
  · rintro rfl; simp [jsTruthyStr]
  · rintro rfl; simp [jsTruthyStr]
  · rintro rfl; simp [jsTruthyStr]

theorem linksPUT_notFound (validURL : String → Bool) (now : Nat) (slug : String)
    (dOpt sOpt qOpt : Option String) (links : List (String × LinkData))
    (hs : slug ≠ "") (hk : kvGet links slug = none) :
    linksPUT validURL now slug dOpt sOpt qOpt links = (.notFound, links) := by
  simp [linksPUT, hs, hk]

theorem linksPUT_invalid_dest (validURL : String → Bool) (now : Nat)
    (slug d : String) (sOpt qOpt : Option String)
    (links : List (String × LinkData)) (old : LinkData)
    (hs : slug ≠ "") (hk : kvGet links slug = some old)
    (hd : d ≠ "") (hurl : validURL d = false) :
    linksPUT validURL now slug (some d) sOpt qOpt links =
      (.invalidDestination, links) := by
  simp only [linksPUT, if_neg hs, hk]
  rw [if_pos (by simp [jsTruthyStr, hd, hurl])]

/-! ## Claim C4 -/

/-- C4: `create` rejects with HTTP 400 any slug not matching
`^[A-Za-z0-9_-]+$` and (on a fresh slug) any destination the URL parser
rejects, storing nothing in either case; on success it persists a record with
`clicks = 0`, `createdAt = updatedAt = now`, and status `"draft"` exactly
when the request supplies `"draft"`, else `"active"`. -/
theorem C4_create_validation :
    (∀ (validURL : String → Bool) (now : Nat) (slug destination : String)
       (rs qr : Option String) (links : List (String × LinkData)),
      matchesSlugRegex slug = false →
      createHttpStatus (linksPOST validURL now slug destination rs qr links).1 = 400 ∧
      (linksPOST validURL now slug destination rs qr links).2 = links) ∧
    (∀ (validURL : String → Bool) (now : Nat) (slug destination : String)
       (rs qr : Option String) (links : List (String × LinkData)),
      kvGet links slug = none → validURL destination = false →
      createHttpStatus (linksPOST validURL now slug destination rs qr links).1 = 400 ∧
      (linksPOST validURL now slug destination rs qr links).2 = links) ∧
    (∀ (validURL : String → Bool) (now : Nat) (slug destination : String)
       (rs qr : Option String) (links : List (String × LinkData)),
      matchesSlugRegex slug = true → kvGet links slug = none →
      destination ≠ "" → validURL destination = true →
      linksPOST validURL now slug destination rs qr links =
        (.created ⟨destination, now, now, 0,
           if rs = some "draft" then "draft" else "active",
           if jsTruthyStr qr then qr else none⟩,
         kvSet links slug ⟨destination, now, now, 0,
           if rs = some "draft" then "draft" else "active",
           if jsTruthyStr qr then qr else none⟩)) :=
  ⟨fun validURL now slug destination rs qr links h =>
     linksPOST_invalid_slug validURL now slug destination rs qr links h,
   fun validURL now slug destination rs qr links hfresh hurl =>
     linksPOST_invalid_dest validURL now slug destination rs qr links hfresh hurl,
   fun validURL now slug destination rs qr links h hfresh hd hurl =>
     linksPOST_success validURL now slug destination rs qr links h hfresh hd hurl⟩

/-- C4 (witness): `create("bad slug!", ...)` is rejected with 400;
`create("x", "notaurl")` is rejected with 400; `create("ok-slug_2",
"https://a.com")` succeeds with the defaulted fields. -/
theorem C4_witness :
    (matchesSlugRegex "bad slug!" = false ∧
     createHttpStatus
       (linksPOST demoValidURL 3 "bad slug!" "https://a.com" none none []).1 = 400 ∧
     (linksPOST demoValidURL 3 "bad slug!" "https://a.com" none none []).2 = []) ∧
    (kvGet ([] : List (String × LinkData)) "x" = none ∧
     demoValidURL "notaurl" = false ∧
     createHttpStatus (linksPOST demoValidURL 3 "x" "notaurl" none none []).1 = 400 ∧
     (linksPOST demoValidURL 3 "x" "notaurl" none none []).2 = []) ∧
    (matchesSlugRegex "ok-slug_2" = true ∧
     kvGet ([] : List (String × LinkData)) "ok-slug_2" = none ∧
     ("https://a.com" : String) ≠ "" ∧ demoValidURL "https://a.com" = true ∧
     linksPOST demoValidURL 3 "ok-slug_2" "https://a.com" none none [] =
       (.created ⟨"https://a.com", 3, 3, 0,
          if (none : Option String) = some "draft" then "draft" else "active",
          if jsTruthyStr none then none else none⟩,
        kvSet [] "ok-slug_2" ⟨"https://a.com", 3, 3, 0,
          if (none : Option String) = some "draft" then "draft" else "active",
          if jsTruthyStr none then none else none⟩)) :=
  ⟨⟨by decide,
    C4_create_validation.1 demoValidURL 3 "bad slug!" "https://a.com" none none []
      (by decide)⟩,
   ⟨by decide, by decide,
    C4_create_validation.2.1 demoValidURL 3 "x" "notaurl" none none []
      (by decide) (by decide)⟩,
   ⟨by decide, by decide, by decide, by decide,
    C4_create_validation.2.2 demoValidURL 3 "ok-slug_2" "https://a.com" none none []
      (by decide) (by decide) (by decide) (by decide)⟩⟩

/-! ## Claim C5 -/

/-- C5: for an existing slug, `update` merges only the provided fields —
`destination`, `status`, `qrCode` given as absent are retained, and
`createdAt` and `clicks` are always retained — while `updatedAt` is always
set to `now`; for an unknown slug `update` fails with HTTP 404. -/
theorem C5_update_frame :
    (∀ (validURL : String → Bool) (now : Nat) (slug : String)
       (dOpt sOpt qOpt : Option String) (links : List (String × LinkData))
       (old : LinkData),
      slug ≠ "" → kvGet links slug = some old →
      (jsTruthyStr dOpt = true → validURL (dOpt.getD "") = true) →
      ∃ rec, linksPUT validURL now slug dOpt sOpt qOpt links =
          (.updated rec, kvSet links slug rec) ∧
        updateHttpStatus (.updated rec) = 200 ∧
        rec.updatedAt = now ∧ rec.createdAt = old.createdAt ∧
        rec.clicks = old.clicks ∧
        (dOpt = none → rec.destination = old.destination) ∧
        (sOpt = none → rec.status = old.status) ∧
        (qOpt = none → rec.qrCode = old.qrCode)) ∧
    (∀ (validURL : String → Bool) (now : Nat) (slug : String)
       (dOpt sOpt qOpt : Option String) (links : List (String × LinkData)),
      slug ≠ "" → kvGet links slug = none →
      linksPUT validURL now slug dOpt sOpt qOpt links = (.notFound, links) ∧
      updateHttpStatus .notFound = 404) :=
  ⟨fun validURL now slug dOpt sOpt qOpt links old hs hk hval =>
     linksPUT_frame validURL now slug dOpt sOpt qOpt links old hs hk hval,
   fun validURL now slug dOpt sOpt qOpt links hs hk =>
     ⟨linksPUT_notFound validURL now slug dOpt sOpt qOpt links hs hk, rfl⟩⟩

/-- C5 (witness): `create(s, "https://a.com")` then `update(s,
status="draft")` leaves `destination == "https://a.com"`, and updating an
unknown slug yields 404. -/
theorem C5_witness :
    (("s" : String) ≠ "" ∧
     kvGet [("s", (⟨"https://a.com", 1, 1, 3, "active", none⟩ : LinkData))] "s" =
       some ⟨"https://a.com", 1, 1, 3, "active", none⟩ ∧
     ∃ rec, linksPUT demoValidURL 9 "s" none (some "draft") none
         [("s", ⟨"https://a.com", 1, 1, 3, "active", none⟩)] =
         (.updated rec,
          kvSet [("s", ⟨"https://a.com", 1, 1, 3, "active", none⟩)] "s" rec) ∧
       updateHttpStatus (.updated rec) = 200 ∧
       rec.updatedAt = 9 ∧ rec.createdAt = 1 ∧ rec.clicks = 3 ∧
       ((none : Option String) = none → rec.destination = "https://a.com") ∧
       ((some "draft" : Option String) = none → rec.status = "active") ∧
       ((none : Option String) = none → rec.qrCode = none)) ∧
    (("z" : String) ≠ "" ∧
     linksPUT demoValidURL 9 "z" none none none [] = (.notFound, []) ∧
     updateHttpStatus .notFound = 404) :=
  ⟨⟨by decide, by decide,
    C5_update_frame.1 demoValidURL 9 "s" none (some "draft") none
      [("s", ⟨"https://a.com", 1, 1, 3, "active", none⟩)]
      ⟨"https://a.com", 1, 1, 3, "active", none⟩
      (by decide) (by decide) (by decide)⟩,
   ⟨by decide,
    C5_update_frame.2 demoValidURL 9 "z" none none none [] (by decide) (by decide)⟩⟩

/-! ## Claim C6 -/

/-- C6 (counterexample): the claim "update with a destination that does not
parse as a valid URL fails with HTTP 400 without mutating the record" fails
for the provided-but-empty destination `""`: it does not parse as a URL
(`demoValidURL "" = false`), yet the update succeeds with HTTP 200 and
mutates `updatedAt` (0 ↦ 5). -/
theorem C6_counterexample :
    demoValidURL "" = false ∧
    linksPUT demoValidURL 5 "x" (some "") none none
        [("x", ⟨"https://a.com", 0, 0, 0, "active", none⟩)] =
      (.updated ⟨"https://a.com", 0, 5, 0, "active", none⟩,
       [("x", ⟨"https://a.com", 0, 5, 0, "active", none⟩)]) ∧
    updateHttpStatus
      (.updated (⟨"https://a.com", 0, 5, 0, "active", none⟩ : LinkData)) = 200 := by
  decide

/-- C6 (amended): `update` with a provided non-empty destination the URL
parser rejects fails with HTTP 400 and leaves the store (hence the stored
record, `updatedAt` included) unchanged; a provided empty-string destination
is falsy and is treated as absent instead.  `create` with a destination the
parser rejects fails with HTTP 400 and stores nothing. -/
theorem C6_invalid_destination (validURL : String → Bool) (now : Nat)
    (slug d : String) (sOpt qOpt rs qr : Option String)
    (links : List (String × LinkData)) (old : LinkData)
    (hs : slug ≠ "") (hk : kvGet links slug = some old)
    (hd : d ≠ "") (hurl : validURL d = false) :
    linksPUT validURL now slug (some d) sOpt qOpt links =
      (.invalidDestination, links) ∧
    updateHttpStatus .invalidDestination = 400 ∧
    (∀ (links2 : List (String × LinkData)), kvGet links2 slug = none →
      createHttpStatus (linksPOST validURL now slug d rs qr links2).1 = 400 ∧
      (linksPOST validURL now slug d rs qr links2).2 = links2) :=
  ⟨linksPUT_invalid_dest validURL now slug d sOpt qOpt links old hs hk hd hurl,
   rfl,
   fun links2 hfresh =>
     linksPOST_invalid_dest validURL now slug d rs qr links2 hfresh hurl⟩

/-- C6 (witness): concrete instance of `C6_invalid_destination` at
`d = "also not a url"`. -/
theorem C6_witness :
    ("x" : String) ≠ "" ∧
    kvGet [("x", (⟨"https://a.com", 0, 0, 0, "active", none⟩ : LinkData))] "x" =
      some ⟨"https://a.com", 0, 0, 0, "active", none⟩ ∧
    ("also not a url" : String) ≠ "" ∧
    demoValidURL "also not a url" = false ∧
    (linksPUT demoValidURL 5 "x" (some "also not a url") none none
        [("x", ⟨"https://a.com", 0, 0, 0, "active", none⟩)] =
      (.invalidDestination, [("x", ⟨"https://a.com", 0, 0, 0, "active", none⟩)]) ∧
     updateHttpStatus .invalidDestination = 400 ∧
     (∀ (links2 : List (String × LinkData)), kvGet links2 "x" = none →
       createHttpStatus
         (linksPOST demoValidURL 5 "x" "also not a url" none none links2).1 = 400 ∧
       (linksPOST demoValidURL 5 "x" "also not a url" none none links2).2 = links2)) :=
  ⟨by decide, by decide, by decide, by decide,
   C6_invalid_destination demoValidURL 5 "x" "also not a url" none none none none
     [("x", ⟨"https://a.com", 0, 0, 0, "active", none⟩)]
     ⟨"https://a.com", 0, 0, 0, "active", none⟩
     (by decide) (by decide) (by decide) (by decide)⟩

/-! ## Claim C7 -/

/-- C7: `setup` fails with HTTP 400 and changes nothing whenever an
AuthRecord (with its truthy `passwordHash`) exists — so the record created by
a successful setup is never replaced — and fails with HTTP 400 when
`password.length < 6`; otherwise it persists the AuthRecord holding
`bcryptHash password` (the hash, not the plaintext) and creates a new
SessionRecord under the returned token. -/
theorem C7_setup :
    (∀ (bcryptHash : String → String) (newToken : String) (now : Nat)
       (password : String) (st : AuthState) (a : AuthData),
      st.auth = some a → a.passwordHash ≠ "" →
      setup bcryptHash newToken now password st = (.alreadySetUp, st) ∧
      setupHttpStatus .alreadySetUp = 400) ∧
    (∀ (bcryptHash : String → String) (newToken : String) (now : Nat)
       (password : String) (st : AuthState),
      jsTruthyStr (st.auth.map (fun a => a.passwordHash)) = false →
      password.length < 6 →
      setup bcryptHash newToken now password st = (.weakPassword, st) ∧
      setupHttpStatus .weakPassword = 400) ∧
    (∀ (bcryptHash : String → String) (newToken : String) (now : Nat)
       (password : String) (st : AuthState),
      jsTruthyStr (st.auth.map (fun a => a.passwordHash)) = false →
      6 ≤ password.length →
      setup bcryptHash newToken now password st =
        (.ok newToken,
         { st with
             auth := some ⟨bcryptHash password, now⟩,
             sessions := kvSet st.sessions newToken ⟨now, now + SESSION_EXPIRY⟩ })) := by
  refine ⟨?_, ?_, ?_⟩
  · intro bcryptHash newToken now password st a ha hhash
    have ht : jsTruthyStr (st.auth.map (fun a => a.passwordHash)) = true := by
      simp [ha, jsTruthyStr, hhash]
    exact ⟨by simp [setup, ht], rfl⟩
  · intro bcryptHash newToken now password st hf hlen
    exact ⟨by simp [setup, hf, hlen], rfl⟩
  · intro bcryptHash newToken now password st hf hlen
    simp [setup, hf, Nat.not_lt.mpr hlen]

/-- C7 (witness): concrete instance of all three parts of `C7_setup`. -/
theorem C7_witness :
    ((⟨some ⟨"H", 0⟩, [], none⟩ : AuthState).auth = some ⟨"H", 0⟩ ∧
     (⟨"H", 0⟩ : AuthData).passwordHash ≠ "" ∧
     setup demoHash "t1" 9 "longenough" ⟨some ⟨"H", 0⟩, [], none⟩ =
       (.alreadySetUp, ⟨some ⟨"H", 0⟩, [], none⟩)) ∧
    (jsTruthyStr ((⟨none, [], none⟩ : AuthState).auth.map
        (fun a => a.passwordHash)) = false ∧
     ("short" : String).length < 6 ∧
     setup demoHash "t1" 9 "short" ⟨none, [], none⟩ =
       (.weakPassword, ⟨none, [], none⟩)) ∧
    (6 ≤ ("longenough" : String).length ∧
     setup demoHash "t1" 9 "longenough" ⟨none, [], none⟩ =
       (.ok "t1",
        ⟨some ⟨demoHash "longenough", 9⟩,
         kvSet [] "t1" ⟨9, 9 + SESSION_EXPIRY⟩, none⟩)) :=
  ⟨⟨rfl, by decide,
    (C7_setup.1 demoHash "t1" 9 "longenough" ⟨some ⟨"H", 0⟩, [], none⟩
      ⟨"H", 0⟩ rfl (by decide)).1⟩,
   ⟨by decide, by decide,
    (C7_setup.2.1 demoHash "t1" 9 "short" ⟨none, [], none⟩
      (by decide) (by decide)).1⟩,
   ⟨by decide,
    C7_setup.2.2 demoHash "t1" 9 "longenough" ⟨none, [], none⟩
      (by decide) (by decide)⟩⟩

/-! ## Claim C8 -/

theorem resolveN_clicks (slug : String) (n : Nat) :
    ∀ (links : List (String × LinkData)) (rec : LinkData),
      kvGet links slug = some rec →
      ∃ rec', kvGet (resolveN slug n links) slug = some rec' ∧
        rec'.clicks = rec.clicks + n ∧ rec'.destination = rec.destination := by
  induction n with
  | zero => exact fun links rec h => ⟨rec, h, rfl, rfl⟩
  | succ n ih =>
    intro links rec h
    have hstep : (resolveGET links slug).2 =
        kvSet links slug { rec with clicks := rec.clicks + 1 } := by
      simp [resolveGET, h]
    obtain ⟨rec', h1, h2, h3⟩ :=
      ih (resolveGET links slug).2 { rec with clicks := rec.clicks + 1 }
        (by rw [hstep]; exact kvGet_kvSet_self links slug _)
    refine ⟨rec', ?_, by simp at h2 ⊢; omega, h3⟩
    simpa [resolveN] using h1

/-- C8: resolving an existing slug issues an HTTP 307 redirect to the stored
destination, and `n` sequential calls to `resolve` increase the record's
`clicks` by exactly `n` (leaving `destination` unchanged); resolving an
unknown slug redirects to the home fallback (also a redirect, not a 404). -/
theorem C8_resolve :
    (∀ (links : List (String × LinkData)) (slug : String) (rec : LinkData),
      kvGet links slug = some rec →
      (resolveGET links slug).1 = .redirect rec.destination ∧
      resolveHttpStatus (resolveGET links slug).1 = 307 ∧
      ∀ n, ∃ rec', kvGet (resolveN slug n links) slug = some rec' ∧
        rec'.clicks = rec.clicks + n ∧ rec'.destination = rec.destination) ∧
    (∀ (links : List (String × LinkData)) (slug : String),
      kvGet links slug = none →
      resolveGET links slug = (.home, links) ∧
      resolveHttpStatus (resolveGET links slug).1 = 307 ∧
      resolveHttpStatus (resolveGET links slug).1 ≠ 404) := by
  constructor
  · intro links slug rec h
    have h1 : (resolveGET links slug).1 = .redirect rec.destination := by
      simp [resolveGET, h]
    exact ⟨h1, by rw [h1]; rfl, fun n => resolveN_clicks slug n links rec h⟩
  · intro links slug h
    have h1 : resolveGET links slug = (.home, links) := by
      simp [resolveGET, h]
    exact ⟨h1, by rw [h1]; rfl, by rw [h1]; simp [resolveHttpStatus]⟩

/-- C8 (witness): concrete instance of both halves of `C8_resolve`. -/
theorem C8_witness :
    (kvGet [("p", (⟨"https://example.com/sale", 1, 1, 0, "active", none⟩ :
        LinkData))] "p" = some ⟨"https://example.com/sale", 1, 1, 0, "active", none⟩ ∧
     (resolveGET [("p", ⟨"https://example.com/sale", 1, 1, 0, "active", none⟩)]
        "p").1 = .redirect "https://example.com/sale" ∧
     ∃ rec', kvGet (resolveN "p" 2
        [("p", ⟨"https://example.com/sale", 1, 1, 0, "active", none⟩)]) "p" =
          some rec' ∧ rec'.clicks = 0 + 2 ∧
        rec'.destination = "https://example.com/sale") ∧
    (kvGet ([] : List (String × LinkData)) "q" = none ∧
     resolveGET [] "q" = (.home, [])) :=
  ⟨⟨by decide,
    ((C8_resolve.1 [("p", ⟨"https://example.com/sale", 1, 1, 0, "active", none⟩)]
       "p" ⟨"https://example.com/sale", 1, 1, 0, "active", none⟩ (by decide)).1),
    ((C8_resolve.1 [("p", ⟨"https://example.com/sale", 1, 1, 0, "active", none⟩)]
       "p" ⟨"https://example.com/sale", 1, 1, 0, "active", none⟩ (by decide)).2.2 2)⟩,
   ⟨by decide,
    (C8_resolve.2 [] "q" (by decide)).1⟩⟩

/-! ## Rate-limiter step lemmas -/

theorem checkRateLimit_fresh (now : Nat) :
    checkRateLimit now none = (⟨true, some MAX_LOGIN_ATTEMPTS, none⟩, none) := rfl

theorem checkRateLimit_accum (now att f : Nat)
    (hatt : att < MAX_LOGIN_ATTEMPTS) (hw : now ≤ f + ATTEMPT_WINDOW) :
    checkRateLimit now (some ⟨att, f, none⟩) =
      (⟨true, some (MAX_LOGIN_ATTEMPTS - att), none⟩, some ⟨att, f, none⟩) := by
  simp only [checkRateLimit]
  rw [if_neg (by simp [lockActive]),
    if_neg (by simp only [ATTEMPT_WINDOW] at hw ⊢; omega),
    if_neg (by simp only [MAX_LOGIN_ATTEMPTS] at hatt ⊢; omega)]

theorem checkRateLimit_locked (now : Nat) (d : RateLimitData)
    (hL : lockActive d.lockedUntil now = true) :
    checkRateLimit now (some d) = (⟨false, none, d.lockedUntil⟩, some d) := by
  simp [checkRateLimit, hL]

theorem checkRateLimit_windowExpired (now att f : Nat) (L : Option Nat)
    (hL : lockActive L now = false) (hw : f + ATTEMPT_WINDOW < now) :
    checkRateLimit now (some ⟨att, f, L⟩) =
      (⟨true, some MAX_LOGIN_ATTEMPTS, none⟩, some ⟨att, f, L⟩) := by
  simp only [checkRateLimit]
  rw [if_neg (by simp [hL]),
    if_pos (by simp only [ATTEMPT_WINDOW] at hw ⊢; omega)]

theorem recordFailedAttempt_fresh (now : Nat) :
    recordFailedAttempt now none =
      (⟨MAX_LOGIN_ATTEMPTS - 1, false⟩, ⟨1, now, none⟩) := rfl

theorem recordFailedAttempt_accum (now att f : Nat) (lk : Option Nat)
    (hw : now ≤ f + ATTEMPT_WINDOW) (hatt : att + 1 < MAX_LOGIN_ATTEMPTS) :
    recordFailedAttempt now (some ⟨att, f, lk⟩) =
      (⟨MAX_LOGIN_ATTEMPTS - (att + 1), jsTruthyNat lk⟩, ⟨att + 1, f, lk⟩) := by
  simp only [recordFailedAttempt]
  rw [if_neg (by simp only [ATTEMPT_WINDOW] at hw ⊢; omega),
    if_neg (by simp only [MAX_LOGIN_ATTEMPTS] at hatt ⊢; omega)]

theorem recordFailedAttempt_lock (now att f : Nat) (lk : Option Nat)
    (hw : now ≤ f + ATTEMPT_WINDOW) (hatt : MAX_LOGIN_ATTEMPTS ≤ att + 1) :
    recordFailedAttempt now (some ⟨att, f, lk⟩) =
      (⟨MAX_LOGIN_ATTEMPTS - (att + 1), true⟩,
       ⟨att + 1, f, some (now + LOCKOUT_DURATION)⟩) := by
  simp only [recordFailedAttempt]
  rw [if_neg (by simp only [ATTEMPT_WINDOW] at hw ⊢; omega),
    if_pos (by simp only [MAX_LOGIN_ATTEMPTS] at hatt ⊢; omega)]
  simp [jsTruthyNat, LOCKOUT_DURATION]

/-! ## Login step lemmas -/

theorem login_wrong_fresh (cmp : String → String → Bool) (tok : String)
    (t : Nat) (pw : String) (a : AuthData)
    (sessions : List (String × SessionData))
    (hh : a.passwordHash ≠ "") (hpw : pw ≠ "")
    (hcmp : cmp pw a.passwordHash = false) :
    login cmp tok t pw ⟨some a, sessions, none⟩ =
      (.invalidPassword (MAX_LOGIN_ATTEMPTS - 1),
       ⟨some a, sessions, some ⟨1, t, none⟩⟩) := by
  simp [login, checkRateLimit_fresh, recordFailedAttempt_fresh, hh, hpw, hcmp]

theorem login_wrong_accum (cmp : String → String → Bool) (tok : String)
    (t : Nat) (pw : String) (a : AuthData)
    (sessions : List (String × SessionData)) (att f : Nat)
    (hw : t ≤ f + ATTEMPT_WINDOW) (hatt : att + 1 < MAX_LOGIN_ATTEMPTS)
    (hh : a.passwordHash ≠ "") (hpw : pw ≠ "")
    (hcmp : cmp pw a.passwordHash = false) :
    login cmp tok t pw ⟨some a, sessions, some ⟨att, f, none⟩⟩ =
      (.invalidPassword (MAX_LOGIN_ATTEMPTS - (att + 1)),
       ⟨some a, sessions, some ⟨att + 1, f, none⟩⟩) := by
  have hc := checkRateLimit_accum t att f (by
    simp only [MAX_LOGIN_ATTEMPTS] at hatt ⊢; omega) hw
  have hr := recordFailedAttempt_accum t att f none hw hatt
  simp [login, hc, hr, hh, hpw, hcmp, jsTruthyNat]

theorem login_wrong_lock (cmp : String → String → Bool) (tok : String)
    (t : Nat) (pw : String) (a : AuthData)
    (sessions : List (String × SessionData)) (f : Nat)
    (hw : t ≤ f + ATTEMPT_WINDOW)
    (hh : a.passwordHash ≠ "") (hpw : pw ≠ "")
    (hcmp : cmp pw a.passwordHash = false) :
    login cmp tok t pw
        ⟨some a, sessions, some ⟨MAX_LOGIN_ATTEMPTS - 1, f, none⟩⟩ =
      (.lockedNow,
       ⟨some a, sessions,
        some ⟨MAX_LOGIN_ATTEMPTS, f, some (t + LOCKOUT_DURATION)⟩⟩) := by
  have hc := checkRateLimit_accum t (MAX_LOGIN_ATTEMPTS - 1) f (by
    simp only [MAX_LOGIN_ATTEMPTS]; omega) hw
  have hr := recordFailedAttempt_lock t (MAX_LOGIN_ATTEMPTS - 1) f none hw (by
    simp only [MAX_LOGIN_ATTEMPTS]; omega)
  have h5 : MAX_LOGIN_ATTEMPTS - 1 + 1 = MAX_LOGIN_ATTEMPTS := by
    simp only [MAX_LOGIN_ATTEMPTS]
  rw [h5] at hr
  simp [login, hc, hr, hh, hpw, hcmp]

theorem login_while_locked (cmp : String → String → Bool) (tok : String)
    (t : Nat) (pw : String) (au : Option AuthData)
    (sessions : List (String × SessionData)) (d : RateLimitData)
    (hL : lockActive d.lockedUntil t = true) :
    login cmp tok t pw ⟨au, sessions, some d⟩ =
      (.rateLimited d.lockedUntil, ⟨au, sessions, some d⟩) := by
  simp [login, checkRateLimit_locked t d hL]

theorem login_good_after_window (cmp : String → String → Bool) (tok : String)
    (t : Nat) (pw : String) (a : AuthData)
    (sessions : List (String × SessionData)) (att f : Nat) (L : Option Nat)
    (hL : lockActive L t = false) (hw : f + ATTEMPT_WINDOW < t)
    (hh : a.passwordHash ≠ "") (hpw : pw ≠ "")
    (hcmp : cmp pw a.passwordHash = true) :
    login cmp tok t pw ⟨some a, sessions, some ⟨att, f, L⟩⟩ =
      (.success tok,
       ⟨some a, kvSet sessions tok ⟨t, t + SESSION_EXPIRY⟩, none⟩) := by
  simp [login, checkRateLimit_windowExpired t att f L hL hw, hh, hpw, hcmp]

/-! ## Claim C1 -/

/-- C1: starting from a Fresh rate-limit state, 5 consecutive failed login
calls at `t1 ≤ … ≤ t5` within the 15-minute window anchored at `t1` put the
identity into the Locked state (`lockedUntil = t5 + 15min`); a 6th attempt at
`t6 < lockedUntil` — here made with the correct password — is rejected with
HTTP 429 and leaves the state unchanged; once `lockedUntil` has passed
(`t7 > lockedUntil`), a correct-password attempt succeeds with HTTP 200. -/
theorem C1_lockout (cmp : String → String → Bool)
    (tokF tok6 tok7 wrongPw goodPw : String)
    (t1 t2 t3 t4 t5 t6 t7 : Nat) (a : AuthData)
    (sessions : List (String × SessionData))
    (hh : a.passwordHash ≠ "") (hwp : wrongPw ≠ "") (hgp : goodPw ≠ "")
    (hcw : cmp wrongPw a.passwordHash = false)
    (hcg : cmp goodPw a.passwordHash = true)
    (h12 : t1 ≤ t2) (h23 : t2 ≤ t3) (h34 : t3 ≤ t4) (h45 : t4 ≤ t5)
    (h5w : t5 ≤ t1 + ATTEMPT_WINDOW)
    (h6 : t6 < t5 + LOCKOUT_DURATION)
    (h7 : t5 + LOCKOUT_DURATION < t7) :
    afterFailedLogins cmp tokF wrongPw [t1, t2, t3, t4, t5]
        ⟨some a, sessions, none⟩ =
      ⟨some a, sessions, some ⟨5, t1, some (t5 + LOCKOUT_DURATION)⟩⟩ ∧
    login cmp tok6 t6 goodPw
        ⟨some a, sessions, some ⟨5, t1, some (t5 + LOCKOUT_DURATION)⟩⟩ =
      (.rateLimited (some (t5 + LOCKOUT_DURATION)),
       ⟨some a, sessions, some ⟨5, t1, some (t5 + LOCKOUT_DURATION)⟩⟩) ∧
    loginHttpStatus (.rateLimited (some (t5 + LOCKOUT_DURATION))) = 429 ∧
    login cmp tok7 t7 goodPw
        ⟨some a, sessions, some ⟨5, t1, some (t5 + LOCKOUT_DURATION)⟩⟩ =
      (.success tok7,
       ⟨some a, kvSet sessions tok7 ⟨t7, t7 + SESSION_EXPIRY⟩, none⟩) ∧
    loginHttpStatus (.success tok7) = 200 := by
  have h25 : t2 ≤ t5 := le_trans h23 (le_trans h34 h45)
  have h35 : t3 ≤ t5 := le_trans h34 h45
  have h15 : t1 ≤ t5 := le_trans h12 h25
  have e1 := login_wrong_fresh cmp tokF t1 wrongPw a sessions hh hwp hcw
  have e2 := login_wrong_accum cmp tokF t2 wrongPw a sessions 1 t1
    (le_trans h25 h5w) (by simp only [MAX_LOGIN_ATTEMPTS]; omega) hh hwp hcw
  have e3 := login_wrong_accum cmp tokF t3 wrongPw a sessions 2 t1
    (le_trans h35 h5w) (by simp only [MAX_LOGIN_ATTEMPTS]; omega) hh hwp hcw
  have e4 := login_wrong_accum cmp tokF t4 wrongPw a sessions 3 t1
    (le_trans h45 h5w) (by simp only [MAX_LOGIN_ATTEMPTS]; omega) hh hwp hcw
  have e5 := login_wrong_lock cmp tokF t5 wrongPw a sessions t1 h5w hh hwp hcw
  have hM1 : MAX_LOGIN_ATTEMPTS - 1 = 4 := by simp only [MAX_LOGIN_ATTEMPTS]
  have hM : MAX_LOGIN_ATTEMPTS = 5 := by simp only [MAX_LOGIN_ATTEMPTS]
  rw [hM1] at e1 e5
  rw [hM] at e5
  have htrace : afterFailedLogins cmp tokF wrongPw [t1, t2, t3, t4, t5]
      ⟨some a, sessions, none⟩ =
      ⟨some a, sessions, some ⟨5, t1, some (t5 + LOCKOUT_DURATION)⟩⟩ := by
    simp only [afterFailedLogins, e1, e2, e3, e4, e5]
  refine ⟨htrace, ?_, rfl, ?_, rfl⟩
  · exact login_while_locked cmp tok6 t6 goodPw (some a) sessions
      ⟨5, t1, some (t5 + LOCKOUT_DURATION)⟩ (by simpa [lockActive] using h6)
  · refine login_good_after_window cmp tok7 t7 goodPw a sessions 5 t1
      (some (t5 + LOCKOUT_DURATION)) (by simp [lockActive]; omega) ?_ hh hgp hcg
    have hWL : ATTEMPT_WINDOW = LOCKOUT_DURATION := rfl
    calc t1 + ATTEMPT_WINDOW ≤ t5 + ATTEMPT_WINDOW := Nat.add_le_add_right h15 _
    _ = t5 + LOCKOUT_DURATION := by rw [hWL]
    _ < t7 := h7

/-- C1 (witness): concrete instance of `C1_lockout` with the five failures at
milliseconds 0–4, the locked 6th attempt at 5, and the successful attempt at
900005 (just past `lockedUntil = 900004`). -/
theorem C1_witness :
    afterFailedLogins demoCompare "tk" "bad" [0, 1, 2, 3, 4]
        ⟨some ⟨"H", 0⟩, [], none⟩ =
      ⟨some ⟨"H", 0⟩, [], some ⟨5, 0, some (4 + LOCKOUT_DURATION)⟩⟩ ∧
    login demoCompare "t6" 5 "good"
        ⟨some ⟨"H", 0⟩, [], some ⟨5, 0, some (4 + LOCKOUT_DURATION)⟩⟩ =
      (.rateLimited (some (4 + LOCKOUT_DURATION)),
       ⟨some ⟨"H", 0⟩, [], some ⟨5, 0, some (4 + LOCKOUT_DURATION)⟩⟩) ∧
    loginHttpStatus (.rateLimited (some (4 + LOCKOUT_DURATION))) = 429 ∧
    login demoCompare "t7" 900005 "good"
        ⟨some ⟨"H", 0⟩, [], some ⟨5, 0, some (4 + LOCKOUT_DURATION)⟩⟩ =
      (.success "t7",
       ⟨some ⟨"H", 0⟩, kvSet [] "t7" ⟨900005, 900005 + SESSION_EXPIRY⟩, none⟩) ∧
    loginHttpStatus (.success "t7") = 200 :=
  C1_lockout demoCompare "tk" "t6" "t7" "bad" "good" 0 1 2 3 4 5 900005
    ⟨"H", 0⟩ []
    (by decide) (by decide) (by decide) (by decide) (by decide)
    (by decide) (by decide) (by decide) (by decide) (by decide)
    (by decide) (by decide)

end QRGen
